import Mathlib

/-
Shallow embedding of the dual-model nutrition estimation and cross-validation
engine of tpp-admin, translated from src/app/api/nutrition/analyze/route.ts.
JS numbers are modelled as exact rationals; fallible operations return
Option or Except.
-/

namespace TppNutrition

/-- Eight-field nutrition payload (interface `NutritionResult` in route.ts),
with JS numbers modelled as exact rationals. -/
structure NutritionResult where
  calories : ℚ
  protein : ℚ
  fat : ℚ
  saturated_fat : ℚ
  carbs : ℚ
  sugars : ℚ
  fiber : ℚ
  sodium : ℚ
deriving DecidableEq, Repr

/-- JS `Math.round` : round to the nearest integer, half toward positive
infinity. -/
def jsRound (x : ℚ) : ℤ := ⌊x + 1 / 2⌋

/-- JS `parseFloat(x.toFixed(1))` : round to the nearest tenth, picking the
larger candidate on a tie (the ECMAScript `toFixed` tie rule). -/
def toFixed1 (x : ℚ) : ℚ := ((⌊10 * x + 1 / 2⌋ : ℤ) : ℚ) / 10

/-- One iteration of the deviation-tracking loop body of `crossValidate` :
`if (avg > 0) maxDeviation = Math.max(maxDeviation, Math.abs(cVal - gVal) / avg)`. -/
def devStep (acc cVal gVal : ℚ) : ℚ :=
  let avg := (cVal + gVal) / 2
  if 0 < avg then max acc (|cVal - gVal| / avg) else acc

/-- The per-field value pairs of the two model results, in the order of
`REQUIRED_FIELDS` in route.ts. -/
def fieldPairs (c g : NutritionResult) : List (ℚ × ℚ) :=
  [(c.calories, g.calories), (c.protein, g.protein), (c.fat, g.fat),
   (c.saturated_fat, g.saturated_fat), (c.carbs, g.carbs),
   (c.sugars, g.sugars), (c.fiber, g.fiber), (c.sodium, g.sodium)]

/-- The `maxDeviation` accumulator of `crossValidate` after the loop over
`REQUIRED_FIELDS` (initial value 0). -/
def maxDeviation (c g : NutritionResult) : ℚ :=
  (fieldPairs c g).foldl (fun acc p => devStep acc p.1 p.2) 0

/-- The `averaged` record built by the loop in `crossValidate` : per field the
mean of the two results, `Math.round`-ed for calories and sodium and
`toFixed(1)`-rounded for the six other fields. -/
def averagedResult (c g : NutritionResult) : NutritionResult where
  calories := ((jsRound ((c.calories + g.calories) / 2) : ℤ) : ℚ)
  protein := toFixed1 ((c.protein + g.protein) / 2)
  fat := toFixed1 ((c.fat + g.fat) / 2)
  saturated_fat := toFixed1 ((c.saturated_fat + g.saturated_fat) / 2)
  carbs := toFixed1 ((c.carbs + g.carbs) / 2)
  sugars := toFixed1 ((c.sugars + g.sugars) / 2)
  fiber := toFixed1 ((c.fiber + g.fiber) / 2)
  sodium := ((jsRound ((c.sodium + g.sodium) / 2) : ℤ) : ℚ)

/-- The confidence classification at the end of `crossValidate` :
high below 0.15, medium below 0.30, low otherwise. -/
def confidenceFor (maxDev : ℚ) : String :=
  if maxDev < 15 / 100 then "high"
  else if maxDev < 30 / 100 then "medium"
  else "low"

/-- The function `crossValidate(claudeResult, geminiResult)` of route.ts.
A `null` adapter result is `none`; the thrown `Error` of the both-null case
is an `Except.error` carrying the message. -/
def crossValidate (claudeResult geminiResult : Option NutritionResult) :
    Except String (NutritionResult × String × String) :=
  match claudeResult, geminiResult with
  | none, none => Except.error "Both models failed to produce results"
  | none, some g => Except.ok (g, "gemini_only", "medium")
  | some c, none => Except.ok (c, "claude_only", "medium")
  | some c, some g =>
      Except.ok (averagedResult c g, "dual_model_average",
        confidenceFor (maxDeviation c g))

/-- Suffix of a character list up to and including its last closing brace
(empty when no closing brace occurs). -/
def takeToLastClose (l : List Char) : List Char :=
  (l.reverse.dropWhile (fun ch => ch != '}')).reverse

/-- The extraction step `text.match(/\x7b[\s\S]*\x7d/)` of
`parseNutritionJSON` in route.ts: the regex matches greedily from the first
opening brace that is followed by some closing brace up to the LAST closing
brace of the text. -/
def jsonMatch : List Char → Option (List Char)
  | [] => none
  | ch :: rest =>
      if ch = '{' && rest.contains '}' then some (ch :: takeToLastClose rest)
      else jsonMatch rest

/-- Modelled from the spec: extraction of the first complete balanced brace
span via bracket counting (spec section 4.2 and the design note on dynamic
JSON payload parsing). This definition follows the spec words and is compared
against `jsonMatch`, the extraction the source actually performs. -/
def balancedScan : List Char → ℕ → List Char → Option (List Char)
  | [], _, _ => none
  | ch :: rest, depth, acc =>
      if ch = '{' then balancedScan rest (depth + 1) (acc ++ [ch])
      else if ch = '}' then
        if depth ≤ 1 then some (acc ++ [ch])
        else balancedScan rest (depth - 1) (acc ++ [ch])
      else balancedScan rest depth (acc ++ [ch])

/-- Modelled from the spec: the first balanced brace span of a text,
starting at the first opening brace. -/
def firstBalancedBraceSpan (l : List Char) : Option (List Char) :=
  balancedScan (l.dropWhile (fun ch => ch != '{')) 0 []

/-- Modelled from the spec's words (refinement comparison for the confidence
claim): the maximum of the relative deviations over the fields whose average
is non-zero; fields with zero average are excluded. -/
def specMaxDeviation (a b : NutritionResult) : ℚ :=
  ((fieldPairs a b).filter (fun p => (p.1 + p.2) / 2 != 0)).foldl
    (fun acc p => max acc (|p.1 - p.2| / ((p.1 + p.2) / 2))) 0

/-- Ingredient line of the request body (interface `IngredientInput` in
route.ts); an absent or JSON-null `notes` is `none`. -/
structure IngredientInput where
  amount : String
  unit : String
  item : String
  notes : Option String
deriving DecidableEq, Repr

/-- JS `String.prototype.trim` : strip leading and trailing whitespace
characters (structural model of the JS primitive used by the ingredient
filter). -/
def jsTrim (s : String) : String :=
  String.mk (((s.toList.dropWhile Char.isWhitespace).reverse.dropWhile
    Char.isWhitespace).reverse)

/-- The line rendering of the ingredient map step in `POST` :
amount, unit and item joined by spaces, with a parenthesised notes suffix
exactly when `i.notes` is truthy (present and non-empty). -/
def renderIngredient (i : IngredientInput) : String :=
  i.amount ++ " " ++ i.unit ++ " " ++ i.item ++
    (match i.notes with
     | some n => if n = "" then "" else " (" ++ n ++ ")"
     | none => "")

/-- The `ingredientsList` computation in `POST` : keep the lines whose `item`
is truthy after trimming, render each, join with newlines. -/
def ingredientsListOf (l : List IngredientInput) : String :=
  String.intercalate "\n" ((l.filter (fun i => jsTrim i.item != "")).map renderIngredient)

/-- Modelled from the spec: `getTPPReferenceContext` of
src/lib/nutrition-reference.ts, whose source file is not among the provided
sources. The spec (sections 2 and 4.1) describes it as the static Reference
Data Table rendered once as a labelled ground-truth text block that is
injected verbatim into the prompt; its exact wording does not influence any
behaviour of the engine, so it is modelled as a fixed constant text. -/
def getTPPReferenceContext : String :=
  "TPP PRODUCT REFERENCE DATA (ground truth)"

/-- The function `buildPrompt(title, servings, ingredientsList)` of route.ts;
a falsy title becomes the placeholder and falsy servings become 1, as in the
template interpolations. -/
def buildPrompt (title : String) (servings : ℕ) (ingredientsList : String) : String :=
  let tppReference := getTPPReferenceContext
  let servingsText := toString (if servings = 0 then 1 else servings)
  "You are a professional nutritionist and food scientist. Analyze the following recipe and provide accurate nutritional information PER SERVING.\n\n"
    ++ tppReference
    ++ "\n\n---\n\nRecipe: "
    ++ (if title = "" then "Untitled Recipe" else title)
    ++ "\nServings: "
    ++ servingsText
    ++ "\n\nIngredients:\n"
    ++ ingredientsList
    ++ "\n\nCalculate the nutritional values for ONE SERVING of this recipe.\n\nCRITICAL RULES:\n1. If a TPP product is used (any of The Protein Pancake mixes or syrup), use the EXACT nutritional data provided above, scaled by the amount used.\n2. For other branded ingredients (protein powders, etc.), use standard database values for similar products.\n3. For whole foods (eggs, milk, banana, etc.), use USDA/FSANZ standard reference values.\n4. Calculate the total for ALL ingredients combined, THEN divide by "
    ++ servingsText
    ++ " servings.\n5. Account for cooking method (e.g., oil/butter for frying adds fat).\n6. Be conservative and precise — do NOT overestimate calories.\n\nYou MUST respond with ONLY a JSON object in this exact format, no other text:\n\x7b\n  \"calories\": <number in kcal, whole number>,\n  \"protein\": <number in grams, 1 decimal>,\n  \"fat\": <number in grams, 1 decimal>,\n  \"saturated_fat\": <number in grams, 1 decimal>,\n  \"carbs\": <number in grams, 1 decimal>,\n  \"sugars\": <number in grams, 1 decimal>,\n  \"fiber\": <number in grams, 1 decimal>,\n  \"sodium\": <number in milligrams, whole number>\n\x7d"

/-- Presence of the two provider credentials
(`!!process.env.ANTHROPIC_API_KEY`, `!!process.env.GEMINI_API_KEY`). -/
structure ProviderEnv where
  hasAnthropicKey : Bool
  hasGeminiKey : Bool
deriving DecidableEq, Repr

/-- The request body destructured by `POST` ; `ingredients` is `none` when
the field is missing, null or not an array. -/
structure RequestBody where
  ingredients : Option (List IngredientInput)
  servings : ℕ
  title : String

/-- Outcome of each remote adapter as a function of the prompt it is sent:
`Except.error` is a rejected promise carrying the error message
(transport failure, empty response, parse or schema failure). -/
structure AdapterBehavior where
  claude : String → Except String NutritionResult
  gemini : String → Except String NutritionResult

/-- HTTP response produced by `POST` : an error JSON with its status code, or
the success JSON with the nutrition payload and the meta block. -/
inductive ApiResponse where
  | errorJson (status : ℕ) (error : String)
  | successJson (nutrition : NutritionResult) (method confidence : String)
      (claude gemini : String) (claude_error gemini_error : Option String)
deriving DecidableEq, Repr

/-- The spread `...(err && \x7b claude_error: err \x7d)` : the meta error field
is included exactly when the captured message is truthy. -/
def truthyMessage : Option String → Option String
  | some e => if e = "" then none else some e
  | none => none

/-- The per-adapter failure message captured from a rejected settlement
(`results[k].status === 'rejected' ? reason.message : null`). -/
def adapterError : Except String NutritionResult → Option String
  | Except.error e => some e
  | Except.ok _ => none

/-- The response value produced by the tail of `POST` from the two settled
adapter outcomes: the cross-validation result is either surfaced through the
catch block as a 500, or wrapped in the success JSON with the meta block. -/
def responseFor (claudeRes geminiRes : Except String NutritionResult) : ApiResponse :=
  match crossValidate claudeRes.toOption geminiRes.toOption with
  | Except.error msg => .errorJson 500 ("Nutrition analysis failed: " ++ msg)
  | Except.ok (nutrition, method, confidence) =>
      .successJson nutrition method confidence
        (if claudeRes.toOption.isSome then "ok" else "failed")
        (if geminiRes.toOption.isSome then "ok" else "failed")
        (truthyMessage (adapterError claudeRes))
        (truthyMessage (adapterError geminiRes))

/-- The handler `POST(request)` of route.ts. The body is `Except.error msg`
when `request.json()` rejects; adapter behaviour is passed in as the model of
the two remote services. The second component records the remote provider
calls attempted, as (adapter identity, prompt) pairs, in issue order. -/
def POST (env : ProviderEnv) (body : Except String RequestBody)
    (adapters : AdapterBehavior) : ApiResponse × List (String × String) :=
  if !env.hasAnthropicKey && !env.hasGeminiKey then
    (.errorJson 500 "No AI API keys configured. Add ANTHROPIC_API_KEY and/or GEMINI_API_KEY to your environment variables.", [])
  else
    match body with
    | Except.error msg =>
        (.errorJson 500 ("Nutrition analysis failed: " ++ msg), [])
    | Except.ok b =>
        match b.ingredients with
        | none => (.errorJson 400 "No ingredients provided", [])
        | some ingredients =>
            if ingredients.length = 0 then
              (.errorJson 400 "No ingredients provided", [])
            else
              let ingredientsList := ingredientsListOf ingredients
              let prompt := buildPrompt b.title b.servings ingredientsList
              let claudeRes : Except String NutritionResult :=
                if env.hasAnthropicKey then adapters.claude prompt
                else Except.error "No Anthropic key"
              let geminiRes : Except String NutritionResult :=
                if env.hasGeminiKey then adapters.gemini prompt
                else Except.error "No Gemini key"
              let calls :=
                (if env.hasAnthropicKey then [("claude", prompt)] else []) ++
                (if env.hasGeminiKey then [("gemini", prompt)] else [])
              (responseFor claudeRes geminiRes, calls)

/-- The per-field rounding precision rule of the source (whole number for
calories and sodium, one decimal for the other six fields), applied to a
single nutrient set. -/
def roundPrecision (n : NutritionResult) : NutritionResult where
  calories := ((jsRound n.calories : ℤ) : ℚ)
  protein := toFixed1 n.protein
  fat := toFixed1 n.fat
  saturated_fat := toFixed1 n.saturated_fat
  carbs := toFixed1 n.carbs
  sugars := toFixed1 n.sugars
  fiber := toFixed1 n.fiber
  sodium := ((jsRound n.sodium : ℤ) : ℚ)

/-- Averaging a value with itself gives the value back. -/
theorem half_add_self (a : ℚ) : (a + a) / 2 = a := by ring

/-- The loop body of the deviation tracking is symmetric in the two model
values. -/
theorem devStep_comm (acc x y : ℚ) : devStep acc x y = devStep acc y x := by
  simp only [devStep]
  rw [add_comm y x, abs_sub_comm y x]

/-- Folding the deviation step over swapped pairs gives the same result. -/
theorem foldl_devStep_swap (l : List (ℚ × ℚ)) (acc : ℚ) :
    (l.map Prod.swap).foldl (fun a p => devStep a p.1 p.2) acc =
      l.foldl (fun a p => devStep a p.1 p.2) acc := by
  induction l generalizing acc with
  | nil => rfl
  | cons p t ih =>
      simp only [List.map_cons, List.foldl_cons, Prod.fst_swap, Prod.snd_swap]
      rw [devStep_comm]
      exact ih _

/-- The maximum tracked deviation does not depend on the adapter order. -/
theorem maxDeviation_comm (A B : NutritionResult) :
    maxDeviation A B = maxDeviation B A := by
  have h : fieldPairs B A = (fieldPairs A B).map Prod.swap := rfl
  rw [maxDeviation, maxDeviation, h, foldl_devStep_swap]

/-- The element-wise averaged record does not depend on the adapter order. -/
theorem averagedResult_comm (A B : NutritionResult) :
    averagedResult A B = averagedResult B A := by
  simp only [averagedResult, NutritionResult.mk.injEq]
  refine ⟨?_, ?_, ?_, ?_, ?_, ?_, ?_, ?_⟩ <;> rw [add_comm]

/-- Folding the deviation step over pairs of equal values leaves the
accumulator unchanged. -/
theorem foldl_devStep_diag (l : List (ℚ × ℚ)) (acc : ℚ) (hacc : 0 ≤ acc)
    (h : ∀ p ∈ l, p.1 = p.2) :
    l.foldl (fun a p => devStep a p.1 p.2) acc = acc := by
  induction l generalizing acc with
  | nil => rfl
  | cons p t ih =>
      have hp := h p (List.mem_cons_self p t)
      have hstep : devStep acc p.1 p.2 = acc := by
        simp only [devStep, hp, sub_self, abs_zero, zero_div]
        split
        · exact max_eq_left hacc
        · rfl
      rw [List.foldl_cons, hstep]
      exact ih acc hacc (fun q hq => h q (List.mem_cons_of_mem p hq))

/-- Identical inputs produce a zero maximum deviation. -/
theorem maxDeviation_self (A : NutritionResult) : maxDeviation A A = 0 := by
  refine foldl_devStep_diag _ 0 le_rfl ?_
  intro p hp
  simp only [fieldPairs, List.mem_cons, List.not_mem_nil, or_false] at hp
  rcases hp with h | h | h | h | h | h | h | h <;> rw [h]

/-- Averaging a nutrient set with itself is exactly the per-field precision
rule. -/
theorem averagedResult_self (A : NutritionResult) :
    averagedResult A A = roundPrecision A := by
  simp only [averagedResult, roundPrecision, half_add_self]

/-- A zero maximum deviation classifies as high confidence. -/
theorem confidenceFor_zero : confidenceFor 0 = "high" := by
  norm_num [confidenceFor]

/-- The deviation fold of the source (which skips fields whose average is not
positive) coincides with the spec-side fold over the fields whose average is
non-zero, for any non-negative accumulator: a field with negative average
contributes a non-positive ratio, which a running maximum that started
non-negative absorbs. -/
theorem foldl_devStep_filter (l : List (ℚ × ℚ)) (acc : ℚ) (hacc : 0 ≤ acc) :
    l.foldl (fun a p => devStep a p.1 p.2) acc =
      (l.filter (fun p => (p.1 + p.2) / 2 != 0)).foldl
        (fun a p => max a (|p.1 - p.2| / ((p.1 + p.2) / 2))) acc := by
  induction l generalizing acc with
  | nil => rfl
  | cons p t ih =>
      rcases lt_trichotomy ((p.1 + p.2) / 2) 0 with hneg | hzero | hpos
      · have hstep : devStep acc p.1 p.2 = acc := by
          simp only [devStep]
          rw [if_neg (not_lt.mpr hneg.le)]
        have hfil : (p :: t).filter (fun q => (q.1 + q.2) / 2 != 0) =
            p :: t.filter (fun q => (q.1 + q.2) / 2 != 0) := by
          simp [List.filter_cons, hneg.ne]
        have habs : max acc (|p.1 - p.2| / ((p.1 + p.2) / 2)) = acc :=
          max_eq_left
            ((div_nonpos_iff.mpr (Or.inl ⟨abs_nonneg _, hneg.le⟩)).trans hacc)
        rw [List.foldl_cons, hstep, hfil, List.foldl_cons, habs]
        exact ih acc hacc
      · have hstep : devStep acc p.1 p.2 = acc := by
          simp only [devStep]
          rw [hzero, if_neg (lt_irrefl 0)]
        have hfil : (p :: t).filter (fun q => (q.1 + q.2) / 2 != 0) =
            t.filter (fun q => (q.1 + q.2) / 2 != 0) := by
          simp [List.filter_cons, hzero]
        rw [List.foldl_cons, hstep, hfil]
        exact ih acc hacc
      · have hstep : devStep acc p.1 p.2 =
            max acc (|p.1 - p.2| / ((p.1 + p.2) / 2)) := by
          simp only [devStep]
          rw [if_pos hpos]
        have hfil : (p :: t).filter (fun q => (q.1 + q.2) / 2 != 0) =
            p :: t.filter (fun q => (q.1 + q.2) / 2 != 0) := by
          simp [List.filter_cons, hpos.ne.symm]
        rw [List.foldl_cons, hstep, hfil, List.foldl_cons]
        exact ih _ (hacc.trans (le_max_left _ _))

/-- The tracked maximum deviation of the source equals the spec-side maximum
relative deviation over the fields with non-zero average. -/
theorem maxDeviation_eq_spec (A B : NutritionResult) :
    maxDeviation A B = specMaxDeviation A B :=
  foldl_devStep_filter (fieldPairs A B) 0 le_rfl

/-- C1: for every pair of nutrient sets given to the cross-validator, the
confidence is classified from the maximum relative deviation
`abs (A - B) / ((A + B) / 2)` over the fields whose average is non-zero
(zero-average fields are excluded and cannot produce a division error):
high strictly below 15 percent, medium from 15 up to but excluding 30
percent, low at 30 percent or above. -/
theorem claim_C1_confidence_classification (A B : NutritionResult) :
    crossValidate (some A) (some B) =
      Except.ok (averagedResult A B, "dual_model_average",
        if specMaxDeviation A B < 15 / 100 then "high"
        else if specMaxDeviation A B < 30 / 100 then "medium"
        else "low") := by
  simp only [crossValidate, confidenceFor, maxDeviation_eq_spec]

/-- Concrete single-survivor input whose calories value is not a whole
number (the adapter schema validation only requires the fields to be
numeric). -/
def halfInput : NutritionResult := ⟨5 / 2, 1, 1, 1, 1, 1, 1, 1⟩

/-- C4 counterexample: a reconciled result of the cross-validator (the
single-survivor pass-through) whose calories field is not a whole integer,
refuting the claim for every reconciled result. -/
theorem claim_C4_counterexample :
    crossValidate (some halfInput) none =
      Except.ok (halfInput, "claude_only", "medium") ∧
    ((⌊halfInput.calories⌋ : ℤ) : ℚ) ≠ halfInput.calories := by
  refine ⟨rfl, ?_⟩
  norm_num [halfInput]

/-- C4 amended: in the dual-success case, the reconciled calories and sodium
are whole integers, the six other fields are integer multiples of one tenth,
and every field is the element-wise arithmetic mean of the two inputs rounded
under this precision rule; single-survivor results are passed through
unchanged and carry whatever precision the surviving adapter produced. -/
theorem claim_C4_dual_average_precision (A B : NutritionResult) :
    ∃ r conf, crossValidate (some A) (some B) =
        Except.ok (r, "dual_model_average", conf) ∧
      (∃ k : ℤ, r.calories = (k : ℚ)) ∧
      (∃ k : ℤ, r.sodium = (k : ℚ)) ∧
      (∃ k : ℤ, r.protein = (k : ℚ) / 10) ∧
      (∃ k : ℤ, r.fat = (k : ℚ) / 10) ∧
      (∃ k : ℤ, r.saturated_fat = (k : ℚ) / 10) ∧
      (∃ k : ℤ, r.carbs = (k : ℚ) / 10) ∧
      (∃ k : ℤ, r.sugars = (k : ℚ) / 10) ∧
      (∃ k : ℤ, r.fiber = (k : ℚ) / 10) ∧
      r.calories = ((jsRound ((A.calories + B.calories) / 2) : ℤ) : ℚ) ∧
      r.protein = toFixed1 ((A.protein + B.protein) / 2) ∧
      r.fat = toFixed1 ((A.fat + B.fat) / 2) ∧
      r.saturated_fat = toFixed1 ((A.saturated_fat + B.saturated_fat) / 2) ∧
      r.carbs = toFixed1 ((A.carbs + B.carbs) / 2) ∧
      r.sugars = toFixed1 ((A.sugars + B.sugars) / 2) ∧
      r.fiber = toFixed1 ((A.fiber + B.fiber) / 2) ∧
      r.sodium = ((jsRound ((A.sodium + B.sodium) / 2) : ℤ) : ℚ) := by
  refine ⟨averagedResult A B, confidenceFor (maxDeviation A B), rfl,
    ⟨jsRound ((A.calories + B.calories) / 2), rfl⟩,
    ⟨jsRound ((A.sodium + B.sodium) / 2), rfl⟩,
    ⟨⌊10 * ((A.protein + B.protein) / 2) + 1 / 2⌋, rfl⟩,
    ⟨⌊10 * ((A.fat + B.fat) / 2) + 1 / 2⌋, rfl⟩,
    ⟨⌊10 * ((A.saturated_fat + B.saturated_fat) / 2) + 1 / 2⌋, rfl⟩,
    ⟨⌊10 * ((A.carbs + B.carbs) / 2) + 1 / 2⌋, rfl⟩,
    ⟨⌊10 * ((A.sugars + B.sugars) / 2) + 1 / 2⌋, rfl⟩,
    ⟨⌊10 * ((A.fiber + B.fiber) / 2) + 1 / 2⌋, rfl⟩,
    rfl, rfl, rfl, rfl, rfl, rfl, rfl, rfl⟩

/-- C5: reconciling a valid nutrient set with a failed partner returns it
unchanged, with the method tagged to the surviving adapter and medium
confidence. -/
theorem claim_C5_single_survivor (A : NutritionResult) :
    crossValidate (some A) none = Except.ok (A, "claude_only", "medium") ∧
    crossValidate none (some A) = Except.ok (A, "gemini_only", "medium") :=
  ⟨rfl, rfl⟩

/-- C7: the cross-validator is commutative in its two adapter results: the
averaged values, the method tag and the confidence are identical regardless
of the argument order. -/
theorem claim_C7_commutativity (A B : NutritionResult) :
    crossValidate (some A) (some B) = crossValidate (some B) (some A) := by
  simp only [crossValidate]
  rw [averagedResult_comm, maxDeviation_comm]

/-- C8: reconciling a nutrient set with itself returns its exact values
after the per-field precision rule, with high confidence. -/
theorem claim_C8_idempotence (A : NutritionResult) :
    crossValidate (some A) (some A) =
      Except.ok (roundPrecision A, "dual_model_average", "high") := by
  simp only [crossValidate]
  rw [averagedResult_self, maxDeviation_self, confidenceFor_zero]

/-- Dropping the suffix after the last closing brace of `mid ++ post` gives
back `mid` when `post` has no closing brace and `mid` ends with one. -/
theorem takeToLastClose_append (mid post : List Char) (hpost : '}' ∉ post)
    (hmid : mid.getLast? = some '}') : takeToLastClose (mid ++ post) = mid := by
  unfold takeToLastClose
  rw [List.reverse_append]
  rw [List.dropWhile_append_of_pos (by
    intro a ha
    rw [List.mem_reverse] at ha
    exact bne_iff_ne.mpr (fun h => hpost (h ▸ ha)))]
  have h1 : mid.reverse.head? = some '}' := by
    rw [List.head?_reverse]
    exact hmid
  obtain ⟨t, ht⟩ : ∃ t, mid.reverse = '}' :: t := by
    cases hr : mid.reverse with
    | nil => rw [hr] at h1; exact absurd h1 (by simp)
    | cons a t =>
        rw [hr] at h1
        simp only [List.head?_cons, Option.some.injEq] at h1
        exact ⟨t, by rw [h1]⟩
  rw [ht, List.dropWhile_cons]
  simp only [bne_self_eq_false, Bool.false_eq_true, if_false]
  rw [← ht, List.reverse_reverse]

/-- Unfolding equation of `jsonMatch` at a cons cell. -/
theorem jsonMatch_cons (ch : Char) (rest : List Char) :
    jsonMatch (ch :: rest) =
      if ch = '{' && rest.contains '}' then some (ch :: takeToLastClose rest)
      else jsonMatch rest := by
  rw [jsonMatch.eq_def]

/-- C2 counterexample: on a response whose postamble contains a further
closing brace, the source's extraction returns the whole span up to the LAST
closing brace, not the first complete balanced object, so the postamble is
not stripped as claimed. -/
theorem claim_C2_counterexample :
    jsonMatch ['{', 'a', '}', 'x', '}'] = some ['{', 'a', '}', 'x', '}'] ∧
    firstBalancedBraceSpan ['{', 'a', '}', 'x', '}'] = some ['{', 'a', '}'] ∧
    jsonMatch ['{', 'a', '}', 'x', '}'] ≠
      firstBalancedBraceSpan ['{', 'a', '}', 'x', '}'] := by
  refine ⟨by decide, by decide, by decide⟩

/-- C2 amended: the extraction matches greedily from the first opening brace
to the last closing brace of the response text, so preamble before the
opening brace and postamble containing no closing brace are stripped; a
postamble that does contain a closing brace is included in the extracted
span (and then fails the downstream JSON parse). -/
theorem claim_C2_greedy_extraction (pre mid post : List Char)
    (h1 : '{' ∉ pre) (h2 : '}' ∉ post) (h3 : mid.getLast? = some '}') :
    jsonMatch (pre ++ '{' :: mid ++ post) = some ('{' :: mid) := by
  induction pre with
  | nil =>
      rw [List.nil_append, List.cons_append, jsonMatch_cons]
      have hmem : '}' ∈ mid ++ post :=
        List.mem_append_left post (List.mem_of_getLast?_eq_some h3)
      have hc : (('{' : Char) = '{' && (mid ++ post).contains '}') = true := by
        simpa [List.contains, List.elem_eq_mem] using hmem
      rw [if_pos hc, takeToLastClose_append mid post h2 h3]
  | cons a pre ih =>
      simp only [List.cons_append]
      rw [jsonMatch_cons]
      have ha : a ≠ '{' := fun h => h1 (h ▸ List.mem_cons_self a pre)
      rw [if_neg (by simp [ha])]
      exact ih (fun h => h1 (List.mem_cons_of_mem a h))

/-- C2 amended witness: a concrete text with a one-character preamble and a
brace-free postamble, from which the greedy match extracts exactly the
balanced object. -/
theorem claim_C2_greedy_extraction_witness :
    jsonMatch (['x'] ++ '{' :: ['a', '}'] ++ ['y']) = some ('{' :: ['a', '}']) :=
  claim_C2_greedy_extraction ['x'] ['a', '}'] ['y'] (by decide) (by decide)
    (by decide)

/-- A nutrient set with every field equal to one, used as a concrete adapter
result. -/
def oneSet : NutritionResult := ⟨1, 1, 1, 1, 1, 1, 1, 1⟩

/-- Adapter behaviour where both remote services succeed with `oneSet`. -/
def adapterOk : AdapterBehavior :=
  ⟨fun _ => Except.ok oneSet, fun _ => Except.ok oneSet⟩

/-- Adapter behaviour where both remote services fail with transport
errors. -/
def adapterFail : AdapterBehavior :=
  ⟨fun _ => Except.error "claude transport failure",
   fun _ => Except.error "gemini transport failure"⟩

/-- A well-formed request body with one valid ingredient line. -/
def bodyValid : RequestBody :=
  ⟨some [⟨"1", "cup", "TPP Buttermilk Mix", none⟩], 2, "Protein Pancakes"⟩

/-- A request body whose ingredients field is missing. -/
def bodyNoIngredients : RequestBody := ⟨none, 1, ""⟩

/-- A request body whose ingredients array is non-empty but contains only a
whitespace-only item. -/
def bodyAllBlank : RequestBody := ⟨some [⟨"1", "g", " ", none⟩], 1, "T"⟩

/-- A mixed ingredient list: one valid line and one whitespace-only line. -/
def ingMixed : List IngredientInput :=
  [⟨"1", "g", "egg", none⟩, ⟨"1", "g", " ", none⟩]

/-- When the claude-side option is paired with a failed gemini side, a
successful cross-validation carries the claude_only method tag. -/
theorem crossValidate_claude_method (c? : Option NutritionResult)
    (n : NutritionResult) (m c : String)
    (h : crossValidate c? none = Except.ok (n, m, c)) : m = "claude_only" := by
  cases c? with
  | none => exact absurd h (by simp [crossValidate])
  | some x =>
      simp only [crossValidate, Except.ok.injEq, Prod.mk.injEq] at h
      exact h.2.1.symm

/-- When the gemini-side option is paired with a failed claude side, a
successful cross-validation carries the gemini_only method tag. -/
theorem crossValidate_gemini_method (g? : Option NutritionResult)
    (n : NutritionResult) (m c : String)
    (h : crossValidate none g? = Except.ok (n, m, c)) : m = "gemini_only" := by
  cases g? with
  | none => exact absurd h (by simp [crossValidate])
  | some x =>
      simp only [crossValidate, Except.ok.injEq, Prod.mk.injEq] at h
      exact h.2.1.symm

/-- A success response out of the settled-outcomes tail comes from a
successful cross-validation with the same nutrition, method and
confidence. -/
theorem responseFor_success (cr gr : Except String NutritionResult)
    (n : NutritionResult) (m c cOk gOk : String) (ce ge : Option String)
    (h : responseFor cr gr = ApiResponse.successJson n m c cOk gOk ce ge) :
    crossValidate cr.toOption gr.toOption = Except.ok (n, m, c) := by
  unfold responseFor at h
  cases hcv : crossValidate cr.toOption gr.toOption with
  | error msg => rw [hcv] at h; exact absurd h (by simp)
  | ok r =>
      obtain ⟨n', m', c'⟩ := r
      rw [hcv] at h
      simp only [ApiResponse.successJson.injEq] at h
      rw [h.1, h.2.1, h.2.2.1]

/-- C3 counterexample: a request whose ingredients array is non-empty but
consists only of a whitespace-only item passes the handler's validation (no
client error) and both providers are called, refuting the claim that an
all-blank list fails validation before any provider call. -/
theorem claim_C3_counterexample :
    (POST ⟨true, true⟩ (Except.ok bodyAllBlank) adapterFail).2 =
      [("claude", buildPrompt "T" 1 ""), ("gemini", buildPrompt "T" 1 "")] ∧
    (POST ⟨true, true⟩ (Except.ok bodyAllBlank) adapterFail).1 =
      ApiResponse.errorJson 500
        "Nutrition analysis failed: Both models failed to produce results" :=
  ⟨rfl, rfl⟩

/-- C3 amended: lines with blank or whitespace-only items are excluded from
the rendered ingredient block, so the prompt contains only the valid lines;
but the handler's validation only rejects a missing, non-array or empty
ingredients array — any non-empty array, even one whose every item is blank,
passes validation and both providers are called with the prompt built from
the filtered (possibly empty) ingredient block. -/
theorem claim_C3_ingredient_filtering (title : String) (servings : ℕ)
    (ing : List IngredientInput) (adapters : AdapterBehavior)
    (h : ing ≠ []) :
    ingredientsListOf ing =
      ingredientsListOf (ing.filter (fun i => jsTrim i.item != "")) ∧
    (POST ⟨true, true⟩ (Except.ok ⟨some ing, servings, title⟩) adapters).2 =
      [("claude", buildPrompt title servings (ingredientsListOf ing)),
       ("gemini", buildPrompt title servings (ingredientsListOf ing))] := by
  constructor
  · unfold ingredientsListOf
    rw [List.filter_filter]
    simp only [Bool.and_self]
  · obtain ⟨i, rest, rfl⟩ : ∃ i rest, ing = i :: rest := by
      cases ing with
      | nil => exact absurd rfl h
      | cons i rest => exact ⟨i, rest, rfl⟩
    rfl

/-- C3 amended witness: the mixed list with one valid and one blank line. -/
theorem claim_C3_ingredient_filtering_witness :
    ingredientsListOf ingMixed =
      ingredientsListOf (ingMixed.filter (fun i => jsTrim i.item != "")) ∧
    (POST ⟨true, true⟩ (Except.ok ⟨some ingMixed, 2, "T"⟩) adapterFail).2 =
      [("claude", buildPrompt "T" 2 (ingredientsListOf ingMixed)),
       ("gemini", buildPrompt "T" 2 (ingredientsListOf ingMixed))] :=
  claim_C3_ingredient_filtering "T" 2 ingMixed adapterFail (by decide)

/-- C6 counterexample: when both adapters fail, the surfaced 500 error
message is the fixed string thrown by the cross-validator; neither underlying
adapter failure message is contained in it, refuting the claim that both
underlying messages are attached to the surfaced error. -/
theorem claim_C6_counterexample :
    (POST ⟨true, true⟩ (Except.ok bodyValid) adapterFail).1 =
      ApiResponse.errorJson 500
        "Nutrition analysis failed: Both models failed to produce results" ∧
    ¬ ("claude transport failure".toList <:+:
        "Nutrition analysis failed: Both models failed to produce results".toList) ∧
    ¬ ("gemini transport failure".toList <:+:
        "Nutrition analysis failed: Both models failed to produce results".toList) :=
  ⟨rfl, by decide, by decide⟩

/-- C6 amended: when both adapter results are null the cross-validator throws
(no partial or default nutrition object is produced) and the handler surfaces
a 500 whose message is the fixed text of that error; the individual adapter
failure messages are logged but not attached to the surfaced error. -/
theorem claim_C6_total_failure (e1 e2 title : String) (servings : ℕ)
    (ing : List IngredientInput) (h : ing ≠ []) :
    crossValidate none none =
      Except.error "Both models failed to produce results" ∧
    POST ⟨true, true⟩ (Except.ok ⟨some ing, servings, title⟩)
        ⟨fun _ => Except.error e1, fun _ => Except.error e2⟩ =
      (ApiResponse.errorJson 500
        "Nutrition analysis failed: Both models failed to produce results",
       [("claude", buildPrompt title servings (ingredientsListOf ing)),
        ("gemini", buildPrompt title servings (ingredientsListOf ing))]) := by
  refine ⟨rfl, ?_⟩
  obtain ⟨i, rest, rfl⟩ : ∃ i rest, ing = i :: rest := by
    cases ing with
    | nil => exact absurd rfl h
    | cons i rest => exact ⟨i, rest, rfl⟩
  rfl

/-- C6 amended witness: a concrete total failure with distinct adapter
messages. -/
theorem claim_C6_total_failure_witness :
    crossValidate none none =
      Except.error "Both models failed to produce results" ∧
    POST ⟨true, true⟩
        (Except.ok ⟨some [⟨"1", "cup", "TPP Buttermilk Mix", none⟩], 2,
          "Protein Pancakes"⟩)
        ⟨fun _ => Except.error "boomA", fun _ => Except.error "boomB"⟩ =
      (ApiResponse.errorJson 500
        "Nutrition analysis failed: Both models failed to produce results",
       [("claude", buildPrompt "Protein Pancakes" 2
          (ingredientsListOf [⟨"1", "cup", "TPP Buttermilk Mix", none⟩])),
        ("gemini", buildPrompt "Protein Pancakes" 2
          (ingredientsListOf [⟨"1", "cup", "TPP Buttermilk Mix", none⟩]))]) :=
  claim_C6_total_failure "boomA" "boomB" "Protein Pancakes" 2
    [⟨"1", "cup", "TPP Buttermilk Mix", none⟩] (by decide)

/-- C9: with neither credential configured every request is refused with the
500 configuration error and no remote call is attempted; with exactly one
credential configured, a successful response always carries that adapter's
only-method tag. -/
theorem claim_C9_credential_gating :
    (∀ body adapters, POST ⟨false, false⟩ body adapters =
        (ApiResponse.errorJson 500
          "No AI API keys configured. Add ANTHROPIC_API_KEY and/or GEMINI_API_KEY to your environment variables.",
         [])) ∧
    (∀ body adapters n m c cOk gOk ce ge,
        (POST ⟨true, false⟩ body adapters).1 =
          ApiResponse.successJson n m c cOk gOk ce ge → m = "claude_only") ∧
    (∀ body adapters n m c cOk gOk ce ge,
        (POST ⟨false, true⟩ body adapters).1 =
          ApiResponse.successJson n m c cOk gOk ce ge → m = "gemini_only") := by
  refine ⟨fun body adapters => rfl, ?_, ?_⟩
  · intro body adapters n m c cOk gOk ce ge h
    rcases body with msg | b
    · exact absurd h (by simp [POST])
    · obtain ⟨iOpt, sv, tl⟩ := b
      rcases iOpt with _ | ing
      · exact absurd h (by simp [POST])
      · rcases ing with _ | ⟨i, rest⟩
        · exact absurd h (by simp [POST])
        · have hred : (POST ⟨true, false⟩
              (Except.ok ⟨some (i :: rest), sv, tl⟩) adapters).1 =
              responseFor
                (adapters.claude (buildPrompt tl sv (ingredientsListOf (i :: rest))))
                (Except.error "No Gemini key") := rfl
          rw [hred] at h
          exact crossValidate_claude_method _ n m c (responseFor_success _ _ _ _ _ _ _ _ _ h)
  · intro body adapters n m c cOk gOk ce ge h
    rcases body with msg | b
    · exact absurd h (by simp [POST])
    · obtain ⟨iOpt, sv, tl⟩ := b
      rcases iOpt with _ | ing
      · exact absurd h (by simp [POST])
      · rcases ing with _ | ⟨i, rest⟩
        · exact absurd h (by simp [POST])
        · have hred : (POST ⟨false, true⟩
              (Except.ok ⟨some (i :: rest), sv, tl⟩) adapters).1 =
              responseFor (Except.error "No Anthropic key")
                (adapters.gemini (buildPrompt tl sv (ingredientsListOf (i :: rest)))) := rfl
          rw [hred] at h
          exact crossValidate_gemini_method _ n m c (responseFor_success _ _ _ _ _ _ _ _ _ h)

/-- C9 witness: concrete no-credential refusal and concrete degraded
single-provider successes on each side. -/
theorem claim_C9_credential_gating_witness :
    POST ⟨false, false⟩ (Except.ok bodyValid) adapterOk =
      (ApiResponse.errorJson 500
        "No AI API keys configured. Add ANTHROPIC_API_KEY and/or GEMINI_API_KEY to your environment variables.",
       []) ∧
    "claude_only" = "claude_only" ∧ "gemini_only" = "gemini_only" :=
  ⟨claim_C9_credential_gating.1 (Except.ok bodyValid) adapterOk,
   claim_C9_credential_gating.2.1 (Except.ok bodyValid) adapterOk oneSet
     "claude_only" "medium" "ok" "failed" none (some "No Gemini key") rfl,
   claim_C9_credential_gating.2.2 (Except.ok bodyValid) adapterOk oneSet
     "gemini_only" "medium" "failed" "ok" (some "No Anthropic key") none rfl⟩

/-- C10: the credential check precedes any reading or validation of the
request body: with neither credential configured every request — including
one with missing or empty ingredients — gets the 500 configuration error,
and a 400 ingredient-validation error is only reachable when at least one
credential is configured. -/
theorem claim_C10_key_check_precedes_body :
    (∀ body adapters, (POST ⟨false, false⟩ body adapters).1 =
        ApiResponse.errorJson 500
          "No AI API keys configured. Add ANTHROPIC_API_KEY and/or GEMINI_API_KEY to your environment variables.") ∧
    (∀ env body adapters msg,
        (POST env body adapters).1 = ApiResponse.errorJson 400 msg →
        env.hasAnthropicKey = true ∨ env.hasGeminiKey = true) := by
  refine ⟨fun body adapters => rfl, ?_⟩
  intro env body adapters msg h
  obtain ⟨a, g⟩ := env
  cases a with
  | true => exact Or.inl rfl
  | false =>
      cases g with
      | true => exact Or.inr rfl
      | false =>
          have hred : (POST ⟨false, false⟩ body adapters).1 =
              ApiResponse.errorJson 500
                "No AI API keys configured. Add ANTHROPIC_API_KEY and/or GEMINI_API_KEY to your environment variables." := rfl
          rw [hred] at h
          simp at h

/-- C10 witness: a no-credential request with a missing ingredients field is
refused with the configuration error, and a concrete 400 arises under a
configured credential. -/
theorem claim_C10_key_check_precedes_body_witness :
    (POST ⟨false, false⟩ (Except.ok bodyNoIngredients) adapterOk).1 =
      ApiResponse.errorJson 500
        "No AI API keys configured. Add ANTHROPIC_API_KEY and/or GEMINI_API_KEY to your environment variables." ∧
    ((true : Bool) = true ∨ (false : Bool) = true) :=
  ⟨claim_C10_key_check_precedes_body.1 (Except.ok bodyNoIngredients) adapterOk,
   claim_C10_key_check_precedes_body.2 ⟨true, false⟩
     (Except.ok bodyNoIngredients) adapterOk "No ingredients provided" rfl⟩

end TppNutrition
